import Mathlib

/-!
Formal model of the tth streaming-orchestrator core.

Shallow embedding of the Python sources under src/tth:
- core/types.py        : control / media / event data model
- control/personas.py  : persona presets
- control/mapper.py    : resolve, merge_controls
- alignment/drift.py   : DriftController
- pipeline/session.py  : Session, SessionManager
- pipeline/orchestrator.py : split-stage Orchestrator.run_turn
- adapters/avatar/stub.py  : StubAvatarAdapter
- api/routes.py        : connection receive-loop handlers

Python strings in the segmentation logic are modelled as lists of
characters (a Python str is a sequence of code points); floats are
modelled as rationals; the nondeterministic uuid4 is an explicit
parameter; the asyncio generators become explicit scripts (finite
output lists plus an optional raised exception), and the concurrent
producer/consumer pair of run_turn is modelled by the deterministic
schedule in which the consumer processes each flushed sentence
eagerly, which preserves the enqueued-event multiset, the per-stream
orders and the set of state writes that the claims below are about.
-/

namespace Tth

/-- Python str, as a sequence of code points. -/
abbrev PyStr := List Char

/-- Python str.strip(): remove leading and trailing whitespace. -/
def pyStrip (s : PyStr) : PyStr :=
  ((s.dropWhile Char.isWhitespace).reverse.dropWhile Char.isWhitespace).reverse

/-- Python round(): round half to even (banker's rounding), as used by
the stub avatar adapter on chunk durations. -/
def pythonRound (q : ℚ) : ℤ :=
  let f := ⌊q⌋
  let frac := q - f
  if frac < 1/2 then f
  else if 1/2 < frac then f + 1
  else if f % 2 = 0 then f else f + 1

/-! ## core/types.py — controls -/

/-- EmotionLabel enum (core/types.py). -/
inductive EmotionLabel
  | NEUTRAL
  | HAPPY
  | SAD
  | ANGRY
  | SURPRISED
  | FEARFUL
  | DISGUSTED
deriving DecidableEq, Repr

/-- EmotionControl (core/types.py); field defaults are the pydantic defaults,
so the zero-argument construction EmotionControl() is `EmotionControl.default`. -/
structure EmotionControl where
  label : EmotionLabel := EmotionLabel.NEUTRAL
  intensity : ℚ := 1/2
  valence : ℚ := 0
  arousal : ℚ := 0
deriving DecidableEq, Repr

/-- The zero-argument constructed EmotionControl(). -/
def EmotionControl.default : EmotionControl := {}

/-- CharacterControl (core/types.py). -/
structure CharacterControl where
  persona_id : String := "default"
  speech_rate : ℚ := 1
  pitch_shift : ℚ := 0
  expressivity : ℚ := 3/5
  motion_gain : ℚ := 1
deriving DecidableEq, Repr

/-- The zero-argument constructed CharacterControl(). -/
def CharacterControl.default : CharacterControl := {}

/-- TurnControl (core/types.py): a pair of sub-controls. -/
structure TurnControl where
  emotion : EmotionControl := EmotionControl.default
  character : CharacterControl := CharacterControl.default
deriving DecidableEq, Repr

/-- The zero-argument constructed TurnControl(). -/
def TurnControl.default : TurnControl := {}

/-! ## control/personas.py -/

/-- The _PRESETS table (control/personas.py lines 8-69). -/
def _PRESETS : List (String × TurnControl) :=
  [ ("default",
      { emotion := { label := EmotionLabel.NEUTRAL, intensity := 1/2, valence := 0, arousal := 0 },
        character := { persona_id := "default", speech_rate := 1, pitch_shift := 0,
                       expressivity := 3/5, motion_gain := 1 } }),
    ("professional",
      { emotion := { label := EmotionLabel.NEUTRAL, intensity := 3/10, valence := 1/10, arousal := -(1/10) },
        character := { persona_id := "professional", speech_rate := 19/20, pitch_shift := 0,
                       expressivity := 2/5, motion_gain := 7/10 } }),
    ("casual",
      { emotion := { label := EmotionLabel.HAPPY, intensity := 2/5, valence := 3/10, arousal := 1/10 },
        character := { persona_id := "casual", speech_rate := 21/20, pitch_shift := 0,
                       expressivity := 7/10, motion_gain := 11/10 } }),
    ("excited",
      { emotion := { label := EmotionLabel.HAPPY, intensity := 4/5, valence := 7/10, arousal := 3/5 },
        character := { persona_id := "excited", speech_rate := 6/5, pitch_shift := 1/20,
                       expressivity := 9/10, motion_gain := 3/2 } }) ]

/-- get_persona_defaults (control/personas.py lines 72-74):
_PRESETS.get(persona_id, _PRESETS["default"]). -/
def get_persona_defaults (persona_id : String) : TurnControl :=
  match (_PRESETS.find? (fun p => p.1 = persona_id)).map (·.2) with
  | some tc => tc
  | none => (((_PRESETS.find? (fun p => p.1 = "default")).map (·.2)).getD TurnControl.default)

/-- get_persona_name (control/personas.py lines 77-84). -/
def get_persona_name (persona_id : String) : String :=
  let names : List (String × String) :=
    [("default", "Assistant"), ("professional", "Professional"),
     ("casual", "Casual"), ("excited", "Excited")]
  (((names.find? (fun p => p.1 = persona_id)).map (·.2)).getD "Assistant")

/-! ## control/mapper.py — resolve and merge_controls -/

/-- resolve (control/mapper.py lines 65-78). Emotion default-ness is tested by
structural equality to EmotionControl(); character default-ness is tested by
persona_id == "default". -/
def resolve (user_control : TurnControl) (persona_defaults : TurnControl) : TurnControl :=
  let user_emotion_is_default : Bool := user_control.emotion = EmotionControl.default
  let user_character_is_default : Bool := user_control.character.persona_id = "default"
  { emotion :=
      if user_emotion_is_default then persona_defaults.emotion else user_control.emotion,
    character :=
      if user_character_is_default then persona_defaults.character else user_control.character }

/-- merge_controls (control/mapper.py lines 81-106): override wins if
structurally non-default, else base if structurally non-default, else the
type default. -/
def merge_controls (base : TurnControl) (override : TurnControl) : TurnControl :=
  let base_emotion_is_default : Bool := base.emotion = EmotionControl.default
  let base_character_is_default : Bool := base.character = CharacterControl.default
  let over_emotion_is_default : Bool := override.emotion = EmotionControl.default
  let over_character_is_default : Bool := override.character = CharacterControl.default
  { emotion :=
      if ¬ over_emotion_is_default then override.emotion
      else if ¬ base_emotion_is_default then base.emotion
      else EmotionControl.default,
    character :=
      if ¬ over_character_is_default then override.character
      else if ¬ base_character_is_default then base.character
      else CharacterControl.default }

/-! ## alignment/drift.py -/

/-- DriftController (alignment/drift.py): a deque of drift samples with
maxlen `window` (default 10). -/
structure DriftController where
  window : Nat := 10
  history : List ℚ := []
deriving DecidableEq, Repr

/-- update (drift.py lines 22-26): append video_ts - audio_ts to the deque
(dropping the oldest sample when the deque is at maxlen) and return the drift. -/
def DriftController.update (d : DriftController) (audio_ts_ms video_ts_ms : ℚ) :
    ℚ × DriftController :=
  let drift := video_ts_ms - audio_ts_ms
  let h := d.history ++ [drift]
  let h2 := if d.window < h.length then h.drop (h.length - d.window) else h
  (drift, { d with history := h2 })

/-- mean_drift_ms (drift.py lines 28-32). -/
def DriftController.mean_drift_ms (d : DriftController) : ℚ :=
  if d.history = [] then 0 else d.history.sum / d.history.length

/-- max_drift_ms (drift.py lines 34-38). -/
def DriftController.max_drift_ms (d : DriftController) : ℚ :=
  if d.history = [] then 0 else ((d.history.map (fun x => |x|)).max?).getD 0

/-- reset (drift.py lines 40-41). -/
def DriftController.reset (d : DriftController) : DriftController :=
  { d with history := [] }

/-- is_within_budget (drift.py lines 43-45). -/
def DriftController.is_within_budget (d : DriftController) (budget_ms : ℚ) : Bool :=
  |d.mean_drift_ms| ≤ budget_ms

/-! ## pipeline/session.py -/

/-- Session.VALID_STATES (session.py lines 14-26). -/
def VALID_STATES : List String :=
  ["IDLE", "LLM_RUN", "CTRL_MERGE", "TTS_RUN", "AVATAR_RUN",
   "STREAMING_OUTPUT", "TURN_COMPLETE", "TURN_ERROR", "INTERRUPTED"]

/-- Session (session.py lines 11-68). `history` and `persona_name` model the
`context` dict; `hasTurnTask` models whether `current_turn_task` holds a live
task; `stateWrites` is instrumentation recording every write to `_state`
performed after construction (by `transition` or by `cancel_current_turn`). -/
structure Session where
  id : String
  persona_defaults : TurnControl
  persona_name : String
  history : List (String × PyStr) := []
  pending_control : Option TurnControl := none
  hasTurnTask : Bool := false
  drift_controller : DriftController := {}
  state : String := "IDLE"
  stateWrites : List String := []
deriving DecidableEq, Repr

/-- transition (session.py lines 45-47): assert the target is a member of
VALID_STATES (a failed assert is an AssertionError, modelled as `.error`),
then write it to `_state` unconditionally. -/
def Session.transition (s : Session) (target : String) : Except String Session :=
  if target ∈ VALID_STATES then
    Except.ok { s with state := target, stateWrites := s.stateWrites ++ [target] }
  else
    Except.error ("Unknown state: " ++ target)

/-- The successful effect of transition. run_turn calls transition only with
string literals drawn from VALID_STATES, where the assert always passes
(lemma `transition_mem_eq_setState` below), so the pipeline model uses this
total form. -/
def Session.setState (s : Session) (target : String) : Session :=
  { s with state := target, stateWrites := s.stateWrites ++ [target] }

/-- cancel_current_turn (session.py lines 53-61): drop the turn task handle and
write "IDLE" to `_state` directly. The cancelled task's CancelledError is
swallowed (lines 56-59), so the call itself enqueues nothing. -/
def Session.cancel_current_turn (s : Session) : Session :=
  { s with hasTurnTask := false, state := "IDLE", stateWrites := s.stateWrites ++ ["IDLE"] }

/-- append_history (session.py lines 63-65). -/
def Session.append_history (s : Session) (role : String) (content : PyStr) : Session :=
  { s with history := s.history ++ [(role, content)] }

/-- SessionManager.create (session.py lines 77-92), with the uuid4 made an
explicit `session_id` parameter. The `emotion` and `character` parameters are
accepted exactly as in the source, whose body never reads them. -/
def SessionManager.create (session_id : String) (persona_id : String)
    (emotion : Option EmotionControl) (character : Option CharacterControl) : Session :=
  { id := session_id,
    persona_defaults := get_persona_defaults persona_id,
    persona_name := get_persona_name persona_id }

/-! ## pipeline/orchestrator.py — the split-stage orchestrator -/

/-- Orchestrator (orchestrator.py lines 22-31): `__init__` assigns exactly the
three attributes `llm`, `tts`, `avatar`. `α` is the type of adapter objects. -/
structure Orchestrator (α : Type) where
  llm : α
  tts : α
  avatar : α

/-- Python attribute lookup on an Orchestrator instance: `__init__` assigns
exactly `llm`, `tts` and `avatar` (orchestrator.py lines 28-31) and nothing
else in the class creates attributes, so every other name misses. -/
def Orchestrator.getattr {α : Type} (o : Orchestrator α) (name : String) : Option α :=
  if name = "llm" then some o.llm
  else if name = "tts" then some o.tts
  else if name = "avatar" then some o.avatar
  else none

/-- A raised Python exception, as routes.py distinguishes them. -/
inductive PyError
  | attributeError (attr : String)
  | exception (message : String)
deriving DecidableEq, Repr

/-- AudioChunk (core/types.py lines 45-52). -/
structure AudioChunk where
  data : List Nat := []
  timestamp_ms : ℚ
  duration_ms : ℚ
  sample_rate : Int := 24000
  encoding : String := "mp3"
deriving DecidableEq, Repr

/-- VideoFrame (core/types.py lines 66-74). -/
structure VideoFrame where
  data : List Nat := []
  timestamp_ms : ℚ
  frame_index : Nat
  width : Nat
  height : Nat
  content_type : String := "jpeg"
deriving DecidableEq, Repr

/-- Outbound events (core/types.py lines 100-148). -/
inductive OutEvent
  | text_delta (token : PyStr)
  | audio_chunk (data : List Nat) (timestamp_ms duration_ms : ℚ)
      (encoding : String) (sample_rate : Int)
  | video_frame (data : List Nat) (timestamp_ms : ℚ) (frame_index : Nat)
      (width height : Nat) (content_type : String) (drift_ms : ℚ)
  | turn_complete (turn_id : String)
  | error (code message : String)
deriving DecidableEq, Repr

def OutEvent.isError : OutEvent → Bool
  | .error _ _ => true
  | _ => false

def OutEvent.isComplete : OutEvent → Bool
  | .turn_complete _ => true
  | _ => false

/-- One observed trace of the LLM adapter's infer_stream: the tokens it
yields, then optionally a raised exception (before the stream would end). -/
structure LLMScript where
  tokens : List PyStr
  fail : Option String := none

/-- One behavior of the TTS adapter's infer_stream on a sentence: the chunks
it yields for that sentence and the resolved control, then optionally a
raised exception. -/
abbrev TTSFun := PyStr → TurnControl → List AudioChunk × Option String

/-- One behavior of the avatar adapter's infer_stream on a chunk, a resolved
control and the context frame_counter: the frames it yields, then optionally
a raised exception. -/
abbrev AvatarFun := AudioChunk → TurnControl → Nat → List VideoFrame × Option String

/-- Sentence-boundary characters (orchestrator.py line 18). -/
def _SENTENCE_ENDS : List Char := ['.', '!', '?', '\n']

/-- Minimum flushed-sentence length (orchestrator.py line 19). -/
def _MIN_SENTENCE_LEN : Nat := 10

/-- The producer's flush test (orchestrator.py line 60):
token[-1] in _SENTENCE_ENDS and len(buf.strip()) >= _MIN_SENTENCE_LEN,
where buf already ends with the just-appended token. Python's token[-1]
presupposes a non-empty token (LLM tokens are non-empty strings). -/
def flushNow (token bufAfter : PyStr) : Bool :=
  (token.getLast?.any fun c => decide (c ∈ _SENTENCE_ENDS)) &&
  decide (_MIN_SENTENCE_LEN ≤ (pyStrip bufAfter).length)

/-- llm_producer's pushes to sentence_q (orchestrator.py lines 52-65) for a
given initial buffer and token stream: each flushed segment in order, the
trailing buffer if its strip is non-empty, then the `none` sentinel. -/
def producerPushes : PyStr → List PyStr → List (Option PyStr)
  | buf, [] => (if pyStrip buf ≠ [] then [some (pyStrip buf)] else []) ++ [none]
  | buf, t :: ts =>
    let buf2 := buf ++ t
    if flushNow t buf2 then some (pyStrip buf2) :: producerPushes [] ts
    else producerPushes buf2 ts

/-- Result of a consumer-side sub-computation of run_turn. -/
structure ConsumeResult where
  events : List OutEvent
  session : Session
  frame_counter : Nat
  err : Option String
deriving Repr

/-- The frame loop of tts_avatar_consumer (orchestrator.py lines 87-102):
per frame, update the drift controller with (chunk ts, frame ts) and emit a
video_frame event carrying the returned drift. -/
def emitFrames (s : Session) (chunk_ts : ℚ) : List VideoFrame → List OutEvent × Session
  | [] => ([], s)
  | f :: fs =>
    let p := s.drift_controller.update chunk_ts f.timestamp_ms
    let ev := OutEvent.video_frame f.data f.timestamp_ms f.frame_index f.width f.height
      f.content_type p.1
    let rest := emitFrames { s with drift_controller := p.2 } chunk_ts fs
    (ev :: rest.1, rest.2)

/-- The chunk body of tts_avatar_consumer (orchestrator.py lines 75-102):
emit the audio_chunk event, transition to AVATAR_RUN, drive the avatar with
the running frame_counter, emit its frames, advance the counter by one per
emitted frame. -/
def consumeChunk (avatar : AvatarFun) (resolved : TurnControl) (s : Session)
    (frame_counter : Nat) (chunk : AudioChunk) : ConsumeResult :=
  let audioEv := OutEvent.audio_chunk chunk.data chunk.timestamp_ms chunk.duration_ms
    chunk.encoding chunk.sample_rate
  let s1 := s.setState "AVATAR_RUN"
  let r := avatar chunk resolved frame_counter
  let e := emitFrames s1 chunk.timestamp_ms r.1
  { events := audioEv :: e.1, session := e.2,
    frame_counter := frame_counter + r.1.length, err := r.2 }

/-- The chunk loop over one sentence's TTS output; an exception raised while
iterating short-circuits the loop. -/
def consumeChunks (avatar : AvatarFun) (resolved : TurnControl) :
    Session → Nat → List AudioChunk → ConsumeResult
  | s, fc, [] => { events := [], session := s, frame_counter := fc, err := none }
  | s, fc, c :: cs =>
    let r := consumeChunk avatar resolved s fc c
    match r.err with
    | some e => { r with err := some e }
    | none =>
      let rest := consumeChunks avatar resolved r.session r.frame_counter cs
      { rest with events := r.events ++ rest.events }

/-- Processing of one sentence pulled from sentence_q (orchestrator.py
lines 72-102): call TTS on it, consume each chunk; a TTS exception raises at
the pull after its last yielded chunk. -/
def consumeSegment (tts : TTSFun) (avatar : AvatarFun) (resolved : TurnControl)
    (s : Session) (fc : Nat) (sentence : PyStr) : ConsumeResult :=
  let t := tts sentence resolved
  let r := consumeChunks avatar resolved s fc t.1
  match r.err with
  | some e => { r with err := some e }
  | none => { r with err := t.2 }

/-- Result of the token loop of run_turn. -/
structure LoopResult where
  events : List OutEvent
  session : Session
  frame_counter : Nat
  buf : PyStr
  err : Option String
deriving Repr

/-- The producer's token loop (orchestrator.py lines 55-62) interleaved with
the consumer: each token yields a text_delta event and is appended to the
buffer; on the flush condition the stripped buffer is pushed to sentence_q
and processed by the consumer (modelled eagerly), and the buffer clears. -/
def runTokens (tts : TTSFun) (avatar : AvatarFun) (resolved : TurnControl) :
    List PyStr → PyStr → Session → Nat → LoopResult
  | [], buf, s, fc =>
    { events := [], session := s, frame_counter := fc, buf := buf, err := none }
  | t :: ts, buf, s, fc =>
    let textEv := OutEvent.text_delta t
    let buf2 := buf ++ t
    if flushNow t buf2 then
      let r := consumeSegment tts avatar resolved s fc (pyStrip buf2)
      match r.err with
      | some e =>
        { events := textEv :: r.events, session := r.session,
          frame_counter := r.frame_counter, buf := [], err := some e }
      | none =>
        let rest := runTokens tts avatar resolved ts [] r.session r.frame_counter
        { rest with events := textEv :: (r.events ++ rest.events) }
    else
      let rest := runTokens tts avatar resolved ts buf2 s fc
      { rest with events := textEv :: rest.events }

/-- Result of run_turn: the events it put on output_q, the session as it left
it, and the exception it raised, if any. -/
structure TurnResult where
  events : List OutEvent
  session : Session
  err : Option String
deriving Repr

/-- Orchestrator.run_turn (orchestrator.py lines 33-112), split-stage mode,
with the generators given as scripts and the fresh uuid4 as `turn_id`.
The two gathered tasks first transition to LLM_RUN (line 53) and TTS_RUN
(line 70); the token loop then runs with the consumer handling each flushed
sentence; if the LLM raises, it does so after its last yielded token, before
the trailing flush and the sentinel; on success the trailing buffer is
flushed if its strip is non-empty, the assistant turn is appended to history
when any token arrived, the session transitions to TURN_COMPLETE and the
turn_complete event is enqueued last. -/
def run_turn (llm : LLMScript) (tts : TTSFun) (avatar : AvatarFun)
    (session : Session) (text : PyStr) (control : TurnControl) (turn_id : String) :
    TurnResult :=
  let resolved := resolve control session.persona_defaults
  let s0 := (session.append_history "user" text).setState "LLM_RUN" |>.setState "TTS_RUN"
  let r := runTokens tts avatar resolved llm.tokens [] s0 0
  match r.err with
  | some e => { events := r.events, session := r.session, err := some e }
  | none =>
    match llm.fail with
    | some e => { events := r.events, session := r.session, err := some e }
    | none =>
      let tail :=
        if pyStrip r.buf ≠ [] then
          consumeSegment tts avatar resolved r.session r.frame_counter (pyStrip r.buf)
        else
          { events := [], session := r.session, frame_counter := r.frame_counter,
            err := none }
      match tail.err with
      | some e => { events := r.events ++ tail.events, session := tail.session,
                    err := some e }
      | none =>
        let s2 :=
          if llm.tokens ≠ [] then
            tail.session.append_history "assistant" llm.tokens.flatten
          else tail.session
        { events := r.events ++ tail.events ++ [OutEvent.turn_complete turn_id],
          session := s2.setState "TURN_COMPLETE", err := none }

/-- The _run wrapper (routes.py lines 112-118) around a turn that ran to
settlement: a raised exception (other than CancelledError) becomes exactly
one error event with code "turn_error"; nothing else is added. -/
def run_task (llm : LLMScript) (tts : TTSFun) (avatar : AvatarFun)
    (session : Session) (text : PyStr) (control : TurnControl) (turn_id : String) :
    List OutEvent × Session :=
  let r := run_turn llm tts avatar session text control turn_id
  match r.err with
  | none => (r.events, r.session)
  | some msg => (r.events ++ [OutEvent.error "turn_error" msg], r.session)

/-- The events actually enqueued by a turn task that was cancelled after `k`
events had been put on output_q: a prefix of the turn's event stream, and
nothing more, because _run swallows CancelledError (routes.py lines 115-116). -/
def run_task_cancelled (llm : LLMScript) (tts : TTSFun) (avatar : AvatarFun)
    (session : Session) (text : PyStr) (control : TurnControl) (turn_id : String)
    (k : Nat) : List OutEvent :=
  (run_turn llm tts avatar session text control turn_id).events.take k

/-- The interrupt branch of recv_loop (routes.py lines 122-126): cancel the
current turn, then evaluate orch.realtime — an attribute lookup on the
orchestrator — and call cancel_response on it. -/
def handle_interrupt {α : Type} (session : Session) (orch : Orchestrator α) :
    Except PyError Session :=
  let s := session.cancel_current_turn
  match orch.getattr "realtime" with
  | none => Except.error (PyError.attributeError "realtime")
  | some _ => Except.ok s

/-- The control_update branch of recv_loop (routes.py lines 128-130). -/
def handle_control_update (s : Session) (control : TurnControl) : Session :=
  { s with pending_control := some control }

/-- Result of the user_text branch of recv_loop. -/
structure UserTextResult where
  session : Session
  text : PyStr
  effective_control : TurnControl
deriving Repr

/-- The user_text branch of recv_loop (routes.py lines 95-120): cancel any
running turn, compute the effective control by merging the stored pending
control (if any) with the event's control, clear the pending control, and
hand (text, effective control) to the spawned turn task. -/
def handle_user_text (s : Session) (text : PyStr) (control : TurnControl) :
    UserTextResult :=
  let s1 := s.cancel_current_turn
  let effective :=
    match s1.pending_control with
    | some b => merge_controls b control
    | none => control
  { session := { s1 with pending_control := none }, text := text,
    effective_control := effective }

/-! ## adapters/avatar/stub.py -/

namespace StubAvatarAdapter

def FPS : Nat := 25

def _W : Nat := 256

def _H : Nat := 256

/-- The 256x256 solid black raw-RGB frame payload (stub.py line 17). -/
def _BLACK_FRAME : List Nat := List.replicate (_W * _H * 3) 0

/-- infer_stream (stub.py lines 31-48): max(1, round(duration_ms/1000*FPS))
frames, 40 ms apart starting at the chunk's timestamp, indexed from the
context's frame_counter. -/
def infer_stream (input : AudioChunk) (frame_counter : Nat) : List VideoFrame :=
  let frames : Nat := (max 1 (pythonRound (input.duration_ms / 1000 * (FPS : ℚ)))).toNat
  let frame_duration_ms : ℚ := 1000 / (FPS : ℚ)
  (List.range frames).map fun (i : Nat) =>
    { data := _BLACK_FRAME,
      timestamp_ms := input.timestamp_ms + (i : ℚ) * frame_duration_ms,
      frame_index := (frame_counter + i : Nat),
      width := _W, height := _H,
      content_type := "raw_rgb" }

end StubAvatarAdapter

/-- The stub avatar as an AvatarFun: deterministic, never raises, ignores the
control (stub.py takes it and does not read it). -/
def stubAvatarFun : AvatarFun := fun chunk _control fc =>
  (StubAvatarAdapter.infer_stream chunk fc, none)

/-- Number of frames the stub avatar emits for a chunk of duration `d` ms. -/
def stubFrameCount (d : ℚ) : Nat :=
  (max 1 (pythonRound (d / 1000 * 25))).toNat

/-- The frame_index values carried by the video_frame events of a stream,
in emission order. -/
def videoIndices (evs : List OutEvent) : List Nat :=
  evs.filterMap fun e =>
    match e with
    | .video_frame _ _ i _ _ _ _ => some i
    | _ => none

/-- The duration_ms values carried by the audio_chunk events of a stream,
in emission order. -/
def audioDurations (evs : List OutEvent) : List ℚ :=
  evs.filterMap fun e =>
    match e with
    | .audio_chunk _ _ d _ _ => some d
    | _ => none

/-- Total stub-avatar frame count implied by the audio_chunk events of a
stream: the sum over chunks of max(1, round(duration_ms/1000 x 25)). -/
def frameTotal (evs : List OutEvent) : Nat :=
  ((audioDurations evs).map stubFrameCount).sum

/-- Number of error events in a stream. -/
def errorCount (evs : List OutEvent) : Nat :=
  evs.countP fun e => e.isError

/-- Number of turn_complete events in a stream. -/
def completeCount (evs : List OutEvent) : Nat :=
  evs.countP fun e => e.isComplete

/-- resolve as claim C1 words it: default-ness of each sub-control, the
character included, detected by structural equality to the zero-argument
constructed value. For comparison with `resolve`, which keys the character
on persona_id alone. -/
def resolveStructural (user_control : TurnControl) (persona_defaults : TurnControl) :
    TurnControl :=
  { emotion :=
      if user_control.emotion = EmotionControl.default then persona_defaults.emotion
      else user_control.emotion,
    character :=
      if user_control.character = CharacterControl.default then persona_defaults.character
      else user_control.character }

/-- The producer's sentence-queue pushes as claim C6 words them: a segment is
pushed exactly when the just-appended token's last character is one of
'.', '!', '?', newline and the trimmed buffer is at least 10 characters
long, the pushed segment being the trimmed buffer, which is then cleared;
when the stream ends the trimmed remainder is pushed if non-empty, followed
by the terminal sentinel. -/
def producerPushesSpec : PyStr → List PyStr → List (Option PyStr)
  | buf, [] =>
    (if (pyStrip buf).length ≠ 0 then [some (pyStrip buf)] else []) ++ [none]
  | buf, t :: ts =>
    let b := buf ++ t
    if t.getLast? ∈ [some '.', some '!', some '?', some '\n'] ∧
        10 ≤ (pyStrip b).length then
      some (pyStrip b) :: producerPushesSpec [] ts
    else producerPushesSpec b ts

/-- Modelled from the spec: the legal-transition relation of the session
state machine of spec section 4.4 (the drawn pipeline edges; any
non-terminal state may move to INTERRUPTED or TURN_ERROR; the terminal
states move back to IDLE). Only needed to compare with the source's
`Session.transition`, which is keyed on VALID_STATES membership alone. -/
def specLegalTransition (src tgt : String) : Bool :=
  let nonterminal :=
    ["IDLE", "LLM_RUN", "CTRL_MERGE", "TTS_RUN", "AVATAR_RUN", "STREAMING_OUTPUT"]
  decide ((src, tgt) ∈
    [("IDLE", "LLM_RUN"), ("LLM_RUN", "TTS_RUN"),
     ("TTS_RUN", "AVATAR_RUN"), ("AVATAR_RUN", "TTS_RUN"),
     ("TTS_RUN", "TURN_COMPLETE"), ("TURN_COMPLETE", "IDLE"),
     ("INTERRUPTED", "IDLE"), ("TURN_ERROR", "IDLE")]) ||
  (decide (src ∈ nonterminal) && decide (tgt ∈ ["INTERRUPTED", "TURN_ERROR"]))

/-! ## Helper lemmas -/

theorem transition_mem_eq_setState (s : Session) (target : String)
    (h : target ∈ VALID_STATES) :
    s.transition target = Except.ok (s.setState target) := by
  simp [Session.transition, Session.setState, h]

/-- The new entries a pipeline sub-computation may add to a session's state
write log: AVATAR_RUN only. -/
def avatarOnlyWrites (old new : List String) : Prop :=
  ∃ l, new = old ++ l ∧ ∀ x ∈ l, x = "AVATAR_RUN"

theorem avatarOnlyWrites_refl (old : List String) : avatarOnlyWrites old old :=
  ⟨[], by simp⟩

theorem avatarOnlyWrites_trans {a b c : List String}
    (h1 : avatarOnlyWrites a b) (h2 : avatarOnlyWrites b c) : avatarOnlyWrites a c := by
  obtain ⟨l1, rfl, hl1⟩ := h1
  obtain ⟨l2, rfl, hl2⟩ := h2
  exact ⟨l1 ++ l2, by simp, by intro x hx; rcases List.mem_append.1 hx with h | h
                               exacts [hl1 x h, hl2 x h]⟩

theorem emitFrames_counts (s : Session) (ts : ℚ) (fs : List VideoFrame) :
    errorCount (emitFrames s ts fs).1 = 0 ∧ completeCount (emitFrames s ts fs).1 = 0 := by
  induction fs generalizing s with
  | nil => simp [emitFrames, errorCount, completeCount]
  | cons f fs ih =>
    simpa [emitFrames, errorCount, completeCount, OutEvent.isError, OutEvent.isComplete]
      using ih _

theorem emitFrames_session (s : Session) (ts : ℚ) (fs : List VideoFrame) :
    (emitFrames s ts fs).2.state = s.state ∧
    (emitFrames s ts fs).2.stateWrites = s.stateWrites := by
  induction fs generalizing s with
  | nil => exact ⟨rfl, rfl⟩
  | cons f fs ih => simpa [emitFrames] using ih _

theorem consumeChunk_counts (avatar : AvatarFun) (resolved : TurnControl) (s : Session)
    (fc : Nat) (c : AudioChunk) :
    errorCount (consumeChunk avatar resolved s fc c).events = 0 ∧
    completeCount (consumeChunk avatar resolved s fc c).events = 0 := by
  have h := emitFrames_counts (s.setState "AVATAR_RUN") c.timestamp_ms
    (avatar c resolved fc).1
  simpa [consumeChunk, errorCount, completeCount, OutEvent.isError, OutEvent.isComplete]
    using h

theorem consumeChunk_session (avatar : AvatarFun) (resolved : TurnControl) (s : Session)
    (fc : Nat) (c : AudioChunk) :
    (consumeChunk avatar resolved s fc c).session.state = "AVATAR_RUN" ∧
    (consumeChunk avatar resolved s fc c).session.stateWrites
      = s.stateWrites ++ ["AVATAR_RUN"] := by
  have h := emitFrames_session (s.setState "AVATAR_RUN") c.timestamp_ms
    (avatar c resolved fc).1
  simpa [consumeChunk, Session.setState] using h

theorem consumeChunks_counts (avatar : AvatarFun) (resolved : TurnControl) (s : Session)
    (fc : Nat) (cs : List AudioChunk) :
    errorCount (consumeChunks avatar resolved s fc cs).events = 0 ∧
    completeCount (consumeChunks avatar resolved s fc cs).events = 0 := by
  induction cs generalizing s fc with
  | nil => simp [consumeChunks, errorCount, completeCount]
  | cons c cs ih =>
    have hc := consumeChunk_counts avatar resolved s fc c
    simp only [consumeChunks]
    cases hr : (consumeChunk avatar resolved s fc c).err with
    | some e => simpa [hr] using hc
    | none =>
      have hrest := ih (consumeChunk avatar resolved s fc c).session
        (consumeChunk avatar resolved s fc c).frame_counter
      simp [hr, errorCount, completeCount, List.countP_append] at hc hrest ⊢
      exact ⟨⟨hc.1, hrest.1⟩, hc.2, hrest.2⟩

theorem consumeChunks_session (avatar : AvatarFun) (resolved : TurnControl) (s : Session)
    (fc : Nat) (cs : List AudioChunk) :
    ((consumeChunks avatar resolved s fc cs).session.state = s.state ∨
      (consumeChunks avatar resolved s fc cs).session.state = "AVATAR_RUN") ∧
    avatarOnlyWrites s.stateWrites (consumeChunks avatar resolved s fc cs).session.stateWrites := by
  induction cs generalizing s fc with
  | nil => exact ⟨Or.inl rfl, avatarOnlyWrites_refl _⟩
  | cons c cs ih =>
    have hc1 := consumeChunk_session avatar resolved s fc c
    have hstep : avatarOnlyWrites s.stateWrites
        (consumeChunk avatar resolved s fc c).session.stateWrites :=
      ⟨["AVATAR_RUN"], hc1.2, by simp⟩
    simp only [consumeChunks]
    cases hr : (consumeChunk avatar resolved s fc c).err with
    | some e => exact ⟨Or.inr hc1.1, hstep⟩
    | none =>
      have hrest := ih (consumeChunk avatar resolved s fc c).session
        (consumeChunk avatar resolved s fc c).frame_counter
      refine ⟨?_, avatarOnlyWrites_trans hstep hrest.2⟩
      rcases hrest.1 with h | h
      · exact Or.inr (by rw [h, hc1.1])
      · exact Or.inr h

theorem consumeSegment_counts (tts : TTSFun) (avatar : AvatarFun) (resolved : TurnControl)
    (s : Session) (fc : Nat) (sentence : PyStr) :
    errorCount (consumeSegment tts avatar resolved s fc sentence).events = 0 ∧
    completeCount (consumeSegment tts avatar resolved s fc sentence).events = 0 := by
  have h := consumeChunks_counts avatar resolved s fc (tts sentence resolved).1
  simp only [consumeSegment]
  cases hr : (consumeChunks avatar resolved s fc (tts sentence resolved).1).err with
  | some e => simpa [hr] using h
  | none => simpa [hr] using h

theorem consumeSegment_session (tts : TTSFun) (avatar : AvatarFun) (resolved : TurnControl)
    (s : Session) (fc : Nat) (sentence : PyStr) :
    ((consumeSegment tts avatar resolved s fc sentence).session.state = s.state ∨
      (consumeSegment tts avatar resolved s fc sentence).session.state = "AVATAR_RUN") ∧
    avatarOnlyWrites s.stateWrites
      (consumeSegment tts avatar resolved s fc sentence).session.stateWrites := by
  have h := consumeChunks_session avatar resolved s fc (tts sentence resolved).1
  simp only [consumeSegment]
  cases hr : (consumeChunks avatar resolved s fc (tts sentence resolved).1).err with
  | some e => simpa [hr] using h
  | none => simpa [hr] using h

theorem runTokens_counts (tts : TTSFun) (avatar : AvatarFun) (resolved : TurnControl)
    (tokens : List PyStr) (buf : PyStr) (s : Session) (fc : Nat) :
    errorCount (runTokens tts avatar resolved tokens buf s fc).events = 0 ∧
    completeCount (runTokens tts avatar resolved tokens buf s fc).events = 0 := by
  induction tokens generalizing buf s fc with
  | nil => simp [runTokens, errorCount, completeCount]
  | cons t ts ih =>
    simp only [runTokens]
    by_cases hf : flushNow t (buf ++ t) = true
    · simp only [hf, if_true]
      have hseg := consumeSegment_counts tts avatar resolved s fc (pyStrip (buf ++ t))
      cases hr : (consumeSegment tts avatar resolved s fc (pyStrip (buf ++ t))).err with
      | some e =>
        simpa [hr, errorCount, completeCount, OutEvent.isError, OutEvent.isComplete]
          using hseg
      | none =>
        have hrest := ih []
          (consumeSegment tts avatar resolved s fc (pyStrip (buf ++ t))).session
          (consumeSegment tts avatar resolved s fc (pyStrip (buf ++ t))).frame_counter
        simp [hr, errorCount, completeCount, OutEvent.isError, OutEvent.isComplete,
          List.countP_append] at hseg hrest ⊢
        exact ⟨⟨hseg.1, hrest.1⟩, hseg.2, hrest.2⟩
    · have hrest := ih (buf ++ t) s fc
      simpa [hf, errorCount, completeCount, OutEvent.isError, OutEvent.isComplete]
        using hrest

theorem runTokens_session (tts : TTSFun) (avatar : AvatarFun) (resolved : TurnControl)
    (tokens : List PyStr) (buf : PyStr) (s : Session) (fc : Nat) :
    ((runTokens tts avatar resolved tokens buf s fc).session.state = s.state ∨
      (runTokens tts avatar resolved tokens buf s fc).session.state = "AVATAR_RUN") ∧
    avatarOnlyWrites s.stateWrites
      (runTokens tts avatar resolved tokens buf s fc).session.stateWrites := by
  induction tokens generalizing buf s fc with
  | nil => exact ⟨Or.inl rfl, avatarOnlyWrites_refl _⟩
  | cons t ts ih =>
    simp only [runTokens]
    by_cases hf : flushNow t (buf ++ t) = true
    · simp only [hf, if_true]
      have hseg := consumeSegment_session tts avatar resolved s fc (pyStrip (buf ++ t))
      cases hr : (consumeSegment tts avatar resolved s fc (pyStrip (buf ++ t))).err with
      | some e => exact ⟨hseg.1, hseg.2⟩
      | none =>
        have hrest := ih []
          (consumeSegment tts avatar resolved s fc (pyStrip (buf ++ t))).session
          (consumeSegment tts avatar resolved s fc (pyStrip (buf ++ t))).frame_counter
        refine ⟨?_, avatarOnlyWrites_trans hseg.2 hrest.2⟩
        rcases hrest.1 with h | h
        · rw [h]; exact hseg.1
        · exact Or.inr h
    · simpa [hf] using ih (buf ++ t) s fc

theorem range'_glue (s m n : Nat) :
    List.range' s m ++ List.range' (s + m) n = List.range' s (m + n) := by
  have h := List.range'_append s m n 1
  rw [Nat.add_comm n m] at h
  simpa using h

theorem frameTotal_append (a b : List OutEvent) :
    frameTotal (a ++ b) = frameTotal a + frameTotal b := by
  simp [frameTotal, audioDurations, List.filterMap_append]

theorem stub_infer_length (c : AudioChunk) (fc : Nat) :
    (StubAvatarAdapter.infer_stream c fc).length = stubFrameCount c.duration_ms := by
  simp [StubAvatarAdapter.infer_stream, stubFrameCount, StubAvatarAdapter.FPS]

theorem stub_infer_indices (c : AudioChunk) (fc : Nat) :
    (StubAvatarAdapter.infer_stream c fc).map (fun f => f.frame_index)
      = List.range' fc (stubFrameCount c.duration_ms) := by
  simp [StubAvatarAdapter.infer_stream, stubFrameCount, StubAvatarAdapter.FPS,
    List.map_map, List.range'_eq_map_range, Function.comp]

theorem emitFrames_stream (s : Session) (ts : ℚ) (fs : List VideoFrame) :
    videoIndices (emitFrames s ts fs).1 = fs.map (fun f => f.frame_index) ∧
    audioDurations (emitFrames s ts fs).1 = [] := by
  induction fs generalizing s with
  | nil => simp [emitFrames, videoIndices, audioDurations]
  | cons f fs ih =>
    simpa [emitFrames, videoIndices, audioDurations] using ih _

theorem consumeChunk_stub (resolved : TurnControl) (s : Session) (fc : Nat)
    (c : AudioChunk) :
    videoIndices (consumeChunk stubAvatarFun resolved s fc c).events
      = List.range' fc (frameTotal (consumeChunk stubAvatarFun resolved s fc c).events) ∧
    (consumeChunk stubAvatarFun resolved s fc c).frame_counter
      = fc + frameTotal (consumeChunk stubAvatarFun resolved s fc c).events ∧
    (consumeChunk stubAvatarFun resolved s fc c).err = none := by
  have he := emitFrames_stream (s.setState "AVATAR_RUN") c.timestamp_ms
    (StubAvatarAdapter.infer_stream c fc)
  have he2 := he.2
  simp only [audioDurations] at he2
  have hft : frameTotal (consumeChunk stubAvatarFun resolved s fc c).events
      = stubFrameCount c.duration_ms := by
    simp [consumeChunk, stubAvatarFun, frameTotal, audioDurations,
      List.filterMap_cons, he2]
  refine ⟨?_, ?_, rfl⟩
  · rw [hft]
    simp [consumeChunk, stubAvatarFun, videoIndices] at he ⊢
    rw [he.1, stub_infer_indices]
  · rw [hft]
    simp [consumeChunk, stubAvatarFun, stub_infer_length]

theorem consumeChunks_stub (resolved : TurnControl) (s : Session) (fc : Nat)
    (cs : List AudioChunk) :
    videoIndices (consumeChunks stubAvatarFun resolved s fc cs).events
      = List.range' fc (frameTotal (consumeChunks stubAvatarFun resolved s fc cs).events) ∧
    (consumeChunks stubAvatarFun resolved s fc cs).frame_counter
      = fc + frameTotal (consumeChunks stubAvatarFun resolved s fc cs).events ∧
    (consumeChunks stubAvatarFun resolved s fc cs).err = none := by
  induction cs generalizing s fc with
  | nil => simp [consumeChunks, videoIndices, frameTotal, audioDurations]
  | cons c cs ih =>
    have hc := consumeChunk_stub resolved s fc c
    have hrest := ih (consumeChunk stubAvatarFun resolved s fc c).session
      (consumeChunk stubAvatarFun resolved s fc c).frame_counter
    simp only [consumeChunks, hc.2.2]
    refine ⟨?_, ?_, hrest.2.2⟩
    · simp only [videoIndices, List.filterMap_append, frameTotal_append]
      simp only [videoIndices] at hc hrest
      rw [hc.1, hrest.1, hc.2.1, range'_glue]
    · rw [frameTotal_append, hrest.2.1, hc.2.1]
      omega

theorem consumeSegment_stub (tts : TTSFun) (resolved : TurnControl) (s : Session)
    (fc : Nat) (sentence : PyStr) :
    videoIndices (consumeSegment tts stubAvatarFun resolved s fc sentence).events
      = List.range' fc
          (frameTotal (consumeSegment tts stubAvatarFun resolved s fc sentence).events) ∧
    (consumeSegment tts stubAvatarFun resolved s fc sentence).frame_counter
      = fc + frameTotal (consumeSegment tts stubAvatarFun resolved s fc sentence).events ∧
    (consumeSegment tts stubAvatarFun resolved s fc sentence).err
      = (tts sentence resolved).2 := by
  have h := consumeChunks_stub resolved s fc (tts sentence resolved).1
  simp only [consumeSegment, h.2.2]
  exact ⟨h.1, h.2.1, trivial⟩

theorem runTokens_stub (tts : TTSFun) (resolved : TurnControl) (tokens : List PyStr)
    (buf : PyStr) (s : Session) (fc : Nat) :
    videoIndices (runTokens tts stubAvatarFun resolved tokens buf s fc).events
      = List.range' fc
          (frameTotal (runTokens tts stubAvatarFun resolved tokens buf s fc).events) ∧
    (runTokens tts stubAvatarFun resolved tokens buf s fc).frame_counter
      = fc + frameTotal (runTokens tts stubAvatarFun resolved tokens buf s fc).events := by
  induction tokens generalizing buf s fc with
  | nil => simp [runTokens, videoIndices, frameTotal, audioDurations]
  | cons t ts ih =>
    simp only [runTokens]
    by_cases hf : flushNow t (buf ++ t) = true
    · simp only [hf, if_true]
      have hseg := consumeSegment_stub tts resolved s fc (pyStrip (buf ++ t))
      rcases hte : (consumeSegment tts stubAvatarFun resolved s fc
          (pyStrip (buf ++ t))).err with _ | e
      · simp only [hte]
        have hrest := ih []
          (consumeSegment tts stubAvatarFun resolved s fc (pyStrip (buf ++ t))).session
          (consumeSegment tts stubAvatarFun resolved s fc (pyStrip (buf ++ t))).frame_counter
        constructor
        · simp only [videoIndices, List.filterMap_cons, List.filterMap_append, frameTotal]
          simp only [audioDurations, List.filterMap_cons, List.filterMap_append]
          simp only [videoIndices, frameTotal, audioDurations] at hseg hrest
          rw [List.map_append, List.sum_append]
          rw [hseg.1, hrest.1, hseg.2.1, range'_glue]
        · simp only [frameTotal, audioDurations, List.filterMap_cons, List.filterMap_append]
          simp only [frameTotal, audioDurations] at hseg hrest
          rw [List.map_append, List.sum_append, hrest.2, hseg.2.1]
          omega
      · simp only [hte]
        constructor
        · simp only [videoIndices, List.filterMap_cons, frameTotal, audioDurations]
          simp only [videoIndices, frameTotal, audioDurations] at hseg
          exact hseg.1
        · simp only [frameTotal, audioDurations, List.filterMap_cons]
          simp only [frameTotal, audioDurations] at hseg
          exact hseg.2.1
    · simp only [hf, if_false]
      have hrest := ih (buf ++ t) s fc
      constructor
      · simp only [videoIndices, List.filterMap_cons, frameTotal, audioDurations]
        simp only [videoIndices, frameTotal, audioDurations] at hrest
        exact hrest.1
      · simp only [frameTotal, audioDurations, List.filterMap_cons]
        simp only [frameTotal, audioDurations] at hrest
        exact hrest.2

theorem videoIndices_append (a b : List OutEvent) :
    videoIndices (a ++ b) = videoIndices a ++ videoIndices b := by
  simp [videoIndices, List.filterMap_append]

theorem run_turn_events (llm : LLMScript) (tts : TTSFun) (avatar : AvatarFun)
    (session : Session) (text : PyStr) (control : TurnControl) (turn_id : String) :
    errorCount (run_turn llm tts avatar session text control turn_id).events = 0 ∧
    ((run_turn llm tts avatar session text control turn_id).err ≠ none →
      completeCount (run_turn llm tts avatar session text control turn_id).events = 0) ∧
    ((run_turn llm tts avatar session text control turn_id).err = none →
      ∃ front, (run_turn llm tts avatar session text control turn_id).events
          = front ++ [OutEvent.turn_complete turn_id] ∧
        completeCount front = 0) := by
  simp only [run_turn]
  set resolved := resolve control session.persona_defaults with hresolved
  set s0 := ((session.append_history "user" text).setState "LLM_RUN").setState "TTS_RUN"
    with hs0
  have hr := runTokens_counts tts avatar resolved llm.tokens [] s0 0
  set R := runTokens tts avatar resolved llm.tokens [] s0 0 with hR
  rcases hre : R.err with _ | e
  swap
  · simp [hre, hr.1, hr.2]
  rcases hlf : llm.fail with _ | e
  swap
  · simp [hre, hlf, hr.1, hr.2]
  have htail := consumeSegment_counts tts avatar resolved R.session R.frame_counter
    (pyStrip R.buf)
  by_cases hb : pyStrip R.buf = []
  · simp only [hre, hlf, if_neg (not_not_intro hb)]
    refine ⟨?_, by simp, fun _ => ⟨R.events, by simp, ?_⟩⟩
    · simp [errorCount, List.countP_append, OutEvent.isError] at hr ⊢
      exact hr.1
    · exact hr.2
  · set T := consumeSegment tts avatar resolved R.session R.frame_counter (pyStrip R.buf)
      with hT
    rcases hte : T.err with _ | e
    · simp only [hre, hlf, if_pos hb, hte]
      refine ⟨?_, by simp, fun _ => ⟨R.events ++ T.events, by simp, ?_⟩⟩
      · simp [errorCount, List.countP_append, OutEvent.isError] at hr htail ⊢
        exact ⟨hr.1, htail.1⟩
      · simp [completeCount, List.countP_append] at hr htail ⊢
        exact ⟨hr.2, htail.2⟩
    · simp only [hre, hlf, if_pos hb, hte]
      refine ⟨?_, fun _ => ?_, by simp⟩
      · simp [errorCount, List.countP_append] at hr htail ⊢
        exact ⟨hr.1, htail.1⟩
      · simp [completeCount, List.countP_append] at hr htail ⊢
        exact ⟨hr.2, htail.2⟩

theorem run_turn_err_session (llm : LLMScript) (tts : TTSFun) (avatar : AvatarFun)
    (session : Session) (text : PyStr) (control : TurnControl) (turn_id : String) :
    (run_turn llm tts avatar session text control turn_id).err = none ∨
    (((run_turn llm tts avatar session text control turn_id).session.state = "TTS_RUN" ∨
      (run_turn llm tts avatar session text control turn_id).session.state = "AVATAR_RUN") ∧
      avatarOnlyWrites (session.stateWrites ++ ["LLM_RUN", "TTS_RUN"])
        (run_turn llm tts avatar session text control turn_id).session.stateWrites) := by
  simp only [run_turn]
  set resolved := resolve control session.persona_defaults with hresolved
  set s0 := ((session.append_history "user" text).setState "LLM_RUN").setState "TTS_RUN"
    with hs0
  have hs0state : s0.state = "TTS_RUN" := rfl
  have hs0writes : s0.stateWrites = session.stateWrites ++ ["LLM_RUN", "TTS_RUN"] := by
    simp [hs0, Session.setState, Session.append_history]
  have hr := runTokens_session tts avatar resolved llm.tokens [] s0 0
  rw [hs0state] at hr
  rw [hs0writes] at hr
  set R := runTokens tts avatar resolved llm.tokens [] s0 0 with hR
  rcases hre : R.err with _ | e
  swap
  · simp only [hre]
    exact Or.inr ⟨hr.1, hr.2⟩
  rcases hlf : llm.fail with _ | e
  swap
  · simp only [hre, hlf]
    exact Or.inr ⟨hr.1, hr.2⟩
  have htail := consumeSegment_session tts avatar resolved R.session R.frame_counter
    (pyStrip R.buf)
  by_cases hb : pyStrip R.buf = []
  · simp [hre, hlf, if_neg (not_not_intro hb)]
  · set T := consumeSegment tts avatar resolved R.session R.frame_counter (pyStrip R.buf)
      with hT
    rcases hte : T.err with _ | e
    · simp [hre, hlf, if_pos hb, hte]
    · simp only [hre, hlf, if_pos hb, hte]
      refine Or.inr ⟨?_, avatarOnlyWrites_trans hr.2 htail.2⟩
      rcases htail.1 with h | h
      · rw [h]; exact hr.1
      · exact Or.inr h

theorem flushNow_iff (t b : PyStr) :
    flushNow t b = true ↔
      (t.getLast? ∈ [some '.', some '!', some '?', some '\n'] ∧
        10 ≤ (pyStrip b).length) := by
  cases h : t.getLast? with
  | none => simp [flushNow, h]
  | some c => simp [flushNow, h, _SENTENCE_ENDS, _MIN_SENTENCE_LEN]

/-! ## Claim theorems -/

/-- C1, counterexample: with a user control whose character is structurally
different from CharacterControl() (speech_rate 2) but has persona_id
"default", `resolve` takes the persona's character, while the claim's
structural-equality rule keeps the user's; so resolve disagrees with the
claim's reading at this input. -/
theorem C1_counterexample :
    resolve
      { emotion := EmotionControl.default,
        character := { persona_id := "default", speech_rate := 2 } }
      (get_persona_defaults "casual")
    ≠ resolveStructural
      { emotion := EmotionControl.default,
        character := { persona_id := "default", speech_rate := 2 } }
      (get_persona_defaults "casual") := by
  intro h
  have h2 := congrArg (fun tc => tc.character.persona_id) h
  dsimp only at h2
  have hA : (resolve
      { emotion := EmotionControl.default,
        character := { persona_id := "default", speech_rate := 2 } }
      (get_persona_defaults "casual")).character.persona_id = "casual" := rfl
  have hB : (resolveStructural
      { emotion := EmotionControl.default,
        character := { persona_id := "default", speech_rate := 2 } }
      (get_persona_defaults "casual")).character.persona_id = "default" := by
    have hne : ({ persona_id := "default", speech_rate := 2 } : CharacterControl)
        ≠ CharacterControl.default := by
      intro hc
      have := congrArg CharacterControl.speech_rate hc
      norm_num [CharacterControl.default] at this
    simp only [resolveStructural, if_neg hne]
  rw [hA, hB] at h2
  exact absurd h2 (by decide)

/-- C1 (amended): resolve takes the emotion from the user control unless it
is structurally equal to EmotionControl(), in which case the persona's; and
takes the character from the user control unless its persona_id equals
"default" (not structural equality), in which case the persona's. -/
theorem C1_resolve_amended (u p : TurnControl) :
    (u.emotion = EmotionControl.default → (resolve u p).emotion = p.emotion) ∧
    (u.emotion ≠ EmotionControl.default → (resolve u p).emotion = u.emotion) ∧
    (u.character.persona_id = "default" → (resolve u p).character = p.character) ∧
    (u.character.persona_id ≠ "default" → (resolve u p).character = u.character) := by
  refine ⟨fun h => ?_, fun h => ?_, fun h => ?_, fun h => ?_⟩ <;>
    simp [resolve, h]

/-- C1 witness: the amended theorem evaluated at concrete controls. -/
theorem C1_resolve_amended_witness :
    (resolve TurnControl.default (get_persona_defaults "casual")).emotion
      = (get_persona_defaults "casual").emotion ∧
    (resolve { character := { persona_id := "excited" } }
        (get_persona_defaults "casual")).character
      = ({ persona_id := "excited" } : CharacterControl) :=
  ⟨(C1_resolve_amended TurnControl.default (get_persona_defaults "casual")).1 rfl,
   (C1_resolve_amended { character := { persona_id := "excited" } }
      (get_persona_defaults "casual")).2.2.2 (by decide)⟩

/-- C2, counterexample: when the LLM raises before yielding anything, the
turn enqueues exactly one error event with code "turn_error" and no
turn_complete, but the session state never becomes TURN_ERROR (that state
name is never written) and does not return to IDLE: it is left at the last
pipeline state, here TTS_RUN. -/
theorem C2_counterexample :
    (run_task { tokens := [], fail := some "boom" } (fun _ _ => ([], none))
        (fun _ _ _ => ([], none)) (SessionManager.create "sid" "default" none none)
        [] {} "t1").1
      = [OutEvent.error "turn_error" "boom"] ∧
    (run_task { tokens := [], fail := some "boom" } (fun _ _ => ([], none))
        (fun _ _ _ => ([], none)) (SessionManager.create "sid" "default" none none)
        [] {} "t1").2.state = "TTS_RUN" ∧
    (run_task { tokens := [], fail := some "boom" } (fun _ _ => ([], none))
        (fun _ _ _ => ([], none)) (SessionManager.create "sid" "default" none none)
        [] {} "t1").2.state ≠ "IDLE" ∧
    "TURN_ERROR" ∉ (run_task { tokens := [], fail := some "boom" } (fun _ _ => ([], none))
        (fun _ _ _ => ([], none)) (SessionManager.create "sid" "default" none none)
        [] {} "t1").2.stateWrites := by decide

/-- C2 (amended): when a generator raises during a turn, exactly one error
event is enqueued — every error event of the turn's stream is the single
error with code "turn_error" and the raised message — and no turn_complete
is enqueued; but the session state is left at the last pipeline state
(TTS_RUN or AVATAR_RUN) — TURN_ERROR is never written and the state returns
to IDLE only through a later cancel_current_turn. -/
theorem C2_generator_failure_amended (llm : LLMScript) (tts : TTSFun) (avatar : AvatarFun)
    (session : Session) (text : PyStr) (control : TurnControl) (turn_id : String)
    (msg : String)
    (hfail : (run_turn llm tts avatar session text control turn_id).err = some msg)
    (hclean : "TURN_ERROR" ∉ session.stateWrites) :
    errorCount (run_task llm tts avatar session text control turn_id).1 = 1 ∧
    (∀ e ∈ (run_task llm tts avatar session text control turn_id).1,
      e.isError = true → e = OutEvent.error "turn_error" msg) ∧
    completeCount (run_task llm tts avatar session text control turn_id).1 = 0 ∧
    ((run_task llm tts avatar session text control turn_id).2.state = "TTS_RUN" ∨
      (run_task llm tts avatar session text control turn_id).2.state = "AVATAR_RUN") ∧
    (run_task llm tts avatar session text control turn_id).2.state ≠ "TURN_ERROR" ∧
    (run_task llm tts avatar session text control turn_id).2.state ≠ "IDLE" ∧
    "TURN_ERROR" ∉ (run_task llm tts avatar session text control turn_id).2.stateWrites := by
  have hev := run_turn_events llm tts avatar session text control turn_id
  have hse := run_turn_err_session llm tts avatar session text control turn_id
  rcases hse with h | hse
  · rw [h] at hfail; exact absurd hfail (by simp)
  have hc0 : completeCount (run_turn llm tts avatar session text control turn_id).events
      = 0 := hev.2.1 (by rw [hfail]; simp)
  simp only [run_task, hfail]
  refine ⟨?_, ?_, ?_, hse.1, ?_, ?_, ?_⟩
  · have h1 := hev.1
    simp only [errorCount] at h1
    simp only [errorCount, List.countP_append]
    rw [h1]
    rfl
  · intro e he hiserr
    rcases List.mem_append.1 he with he | he
    · have h1 := hev.1
      simp only [errorCount, List.countP_eq_zero] at h1
      exact absurd hiserr (by simpa using h1 e he)
    · simpa using he
  · simp only [completeCount] at hc0
    simp only [completeCount, List.countP_append]
    rw [hc0]
    rfl
  · rcases hse.1 with h | h <;> simp [h]
  · rcases hse.1 with h | h <;> simp [h]
  · obtain ⟨l, hw, hall⟩ := hse.2
    rw [hw]
    intro hmem
    rcases List.mem_append.1 hmem with hmem | hmem
    · rcases List.mem_append.1 hmem with hmem | hmem
      · exact hclean hmem
      · exact absurd hmem (by decide)
    · exact absurd (hall _ hmem) (by decide)

/-- C2 witness: the amended theorem evaluated on a turn whose LLM raises
immediately. -/
theorem C2_generator_failure_amended_witness :
    errorCount (run_task { tokens := [], fail := some "boom" } (fun _ _ => ([], none))
        (fun _ _ _ => ([], none)) (SessionManager.create "sid" "default" none none)
        [] {} "t1").1 = 1 ∧
    completeCount (run_task { tokens := [], fail := some "boom" } (fun _ _ => ([], none))
        (fun _ _ _ => ([], none)) (SessionManager.create "sid" "default" none none)
        [] {} "t1").1 = 0 :=
  let h := C2_generator_failure_amended { tokens := [], fail := some "boom" }
    (fun _ _ => ([], none)) (fun _ _ _ => ([], none))
    (SessionManager.create "sid" "default" none none) [] {} "t1" "boom" rfl (by decide)
  ⟨h.1, h.2.2.1⟩

/-- C4, counterexample: cancelling an in-flight turn (here one in LLM_RUN)
writes IDLE to the session state directly; INTERRUPTED is never written, so
the state is not set to INTERRUPTED and then IDLE as the claim states. -/
theorem C4_counterexample :
    ({ SessionManager.create "sid" "default" none none with
       state := "LLM_RUN", hasTurnTask := true,
       stateWrites := ["LLM_RUN"] } : Session).cancel_current_turn.stateWrites
      = ["LLM_RUN", "IDLE"] ∧
    "INTERRUPTED" ∉ ({ SessionManager.create "sid" "default" none none with
       state := "LLM_RUN", hasTurnTask := true,
       stateWrites := ["LLM_RUN"] } : Session).cancel_current_turn.stateWrites := by decide

/-- C4 (amended): when an in-flight turn is cancelled, the events already
enqueued (any proper prefix of the turn's stream) contain no turn_complete
and no error, the cancellation handler adds nothing, and
cancel_current_turn sets the state directly to IDLE — the only state it
writes is IDLE, never INTERRUPTED. -/
theorem C4_cancelled_turn_amended (llm : LLMScript) (tts : TTSFun) (avatar : AvatarFun)
    (session : Session) (text : PyStr) (control : TurnControl) (turn_id : String) (k : Nat)
    (hk : k < (run_turn llm tts avatar session text control turn_id).events.length) :
    completeCount (run_task_cancelled llm tts avatar session text control turn_id k) = 0 ∧
    errorCount (run_task_cancelled llm tts avatar session text control turn_id k) = 0 ∧
    session.cancel_current_turn.state = "IDLE" ∧
    session.cancel_current_turn.stateWrites = session.stateWrites ++ ["IDLE"] := by
  have hev := run_turn_events llm tts avatar session text control turn_id
  have hsub := List.take_sublist k (run_turn llm tts avatar session text control turn_id).events
  refine ⟨?_, ?_, rfl, rfl⟩
  · rcases herr : (run_turn llm tts avatar session text control turn_id).err with _ | e
    · obtain ⟨front, hfr, hcf⟩ := hev.2.2 herr
      rw [hfr] at hk
      have hk2 : k ≤ front.length := by
        simpa [Nat.lt_succ_iff] using hk
      have : completeCount (run_task_cancelled llm tts avatar session text control turn_id k)
          ≤ completeCount front := by
        simp only [run_task_cancelled, completeCount, hfr,
          List.take_append_of_le_length hk2]
        exact List.Sublist.countP_le _ (List.take_sublist _ _)
      omega
    · have h0 := hev.2.1 (by rw [herr]; simp)
      have : completeCount (run_task_cancelled llm tts avatar session text control turn_id k)
          ≤ completeCount (run_turn llm tts avatar session text control turn_id).events := by
        simp only [run_task_cancelled, completeCount]
        exact List.Sublist.countP_le _ hsub
      omega
  · have : errorCount (run_task_cancelled llm tts avatar session text control turn_id k)
        ≤ errorCount (run_turn llm tts avatar session text control turn_id).events := by
      simp only [run_task_cancelled, errorCount]
      exact List.Sublist.countP_le _ hsub
    have h1 := hev.1
    omega

/-- C4 witness: the amended theorem evaluated on a turn cancelled after its
first event (one token, no flushed sentence, cut before turn_complete). -/
theorem C4_cancelled_turn_amended_witness :
    completeCount (run_task_cancelled { tokens := [['h', 'i']] } (fun _ _ => ([], none))
      (fun _ _ _ => ([], none)) (SessionManager.create "sid" "default" none none)
      [] {} "t2" 1) = 0 ∧
    errorCount (run_task_cancelled { tokens := [['h', 'i']] } (fun _ _ => ([], none))
      (fun _ _ _ => ([], none)) (SessionManager.create "sid" "default" none none)
      [] {} "t2" 1) = 0 ∧
    (SessionManager.create "sid" "default" none none).cancel_current_turn.state = "IDLE" :=
  let h := C4_cancelled_turn_amended { tokens := [['h', 'i']] } (fun _ _ => ([], none))
    (fun _ _ _ => ([], none)) (SessionManager.create "sid" "default" none none)
    [] {} "t2" 1 (by decide)
  ⟨h.1, h.2.1, h.2.2.1⟩

/-- C3: for every orchestrator value built by Orchestrator.__init__ — which
assigns only llm, tts and avatar — the interrupt branch of the receive loop
evaluates orch.realtime and always fails with an AttributeError; handling an
InterruptEvent can never complete normally with the split-stage
orchestrator. -/
theorem C3_interrupt_always_attribute_error {α : Type} (session : Session)
    (orch : Orchestrator α) :
    handle_interrupt session orch = Except.error (PyError.attributeError "realtime") := rfl

/-- C5: after a control_update stores B, a user_text carrying O runs with the
effective control computed per sub-control — O's if structurally non-default,
else B's if structurally non-default, else the type default — the pending
control is cleared before the turn starts, and a subsequent user_text
carrying any control gets exactly that control: B affects only the next
turn. -/
theorem C5_pending_control_next_turn (s : Session) (B O : TurnControl) (text : PyStr) :
    ((handle_user_text (handle_control_update s B) text O).effective_control =
      { emotion :=
          if O.emotion ≠ EmotionControl.default then O.emotion
          else if B.emotion ≠ EmotionControl.default then B.emotion
          else EmotionControl.default,
        character :=
          if O.character ≠ CharacterControl.default then O.character
          else if B.character ≠ CharacterControl.default then B.character
          else CharacterControl.default }) ∧
    (handle_user_text (handle_control_update s B) text O).session.pending_control = none ∧
    (∀ (text2 : PyStr) (O2 : TurnControl),
      (handle_user_text
        (handle_user_text (handle_control_update s B) text O).session
        text2 O2).effective_control = O2) := by
  refine ⟨?_, rfl, fun text2 O2 => rfl⟩
  show merge_controls B O = _
  unfold merge_controls
  by_cases h1 : O.emotion = EmotionControl.default <;>
    by_cases h2 : B.emotion = EmotionControl.default <;>
    by_cases h3 : O.character = CharacterControl.default <;>
    by_cases h4 : B.character = CharacterControl.default <;>
    simp [h1, h2, h3, h4]

/-- C6: for every finite sequence of non-empty LLM tokens, the producer's
sentence-queue pushes are exactly as the claim describes them: a push
happens exactly when the just-appended token's last character is one of
'.', '!', '?', newline and the trimmed buffer is at least 10 characters
long, pushing the trimmed buffer and clearing it; at end of stream the
trimmed remainder is pushed if non-empty, then the terminal sentinel. -/
theorem C6_producer_segmentation (tokens : List PyStr)
    (hne : ∀ t ∈ tokens, t ≠ []) :
    producerPushes [] tokens = producerPushesSpec [] tokens := by
  clear hne
  suffices h2 : ∀ (buf : PyStr), producerPushes buf tokens = producerPushesSpec buf tokens from
    h2 []
  induction tokens with
  | nil =>
    intro buf
    by_cases hb : pyStrip buf = [] <;>
      simp [producerPushes, producerPushesSpec, hb, List.length_eq_zero]
  | cons t ts ih =>
    intro buf
    by_cases hc : (t.getLast? ∈ [some '.', some '!', some '?', some '\n'] ∧
        10 ≤ (pyStrip (buf ++ t)).length)
    · simp only [producerPushes, producerPushesSpec]
      rw [if_pos ((flushNow_iff t (buf ++ t)).mpr hc), if_pos hc, ih]
    · simp only [producerPushes, producerPushesSpec]
      rw [if_neg (fun hh => hc ((flushNow_iff t (buf ++ t)).mp hh)), if_neg hc, ih]

/-- C6 witness: the segmentation equivalence evaluated on the spec's S5
scenario tokens, with the non-emptiness hypothesis discharged. -/
theorem C6_producer_segmentation_witness :
    (∀ t ∈ [("Dr.".toList : PyStr), " Smith arrived.".toList, " Done.".toList], t ≠ []) ∧
    producerPushes [] [("Dr.".toList : PyStr), " Smith arrived.".toList, " Done.".toList]
      = producerPushesSpec []
          [("Dr.".toList : PyStr), " Smith arrived.".toList, " Done.".toList] :=
  ⟨by decide,
   C6_producer_segmentation
     [("Dr.".toList : PyStr), " Smith arrived.".toList, " Done.".toList] (by decide)⟩

/-- C7: with the stub avatar, the frame_index values carried by a turn's
video_frame events, in emission order, are exactly 0, 1, ..., total-1,
where total is the sum over the turn's emitted audio chunks of
max(1, round(duration_ms/1000 x 25)); in particular the number of
video_frame events equals that sum. -/
theorem C7_stub_frame_indices (llm : LLMScript) (tts : TTSFun) (session : Session)
    (text : PyStr) (control : TurnControl) (turn_id : String) :
    videoIndices (run_turn llm tts stubAvatarFun session text control turn_id).events
      = List.range
          (frameTotal (run_turn llm tts stubAvatarFun session text control turn_id).events) ∧
    (videoIndices (run_turn llm tts stubAvatarFun session text control turn_id).events).length
      = frameTotal (run_turn llm tts stubAvatarFun session text control turn_id).events := by
  suffices h : videoIndices (run_turn llm tts stubAvatarFun session text control turn_id).events
      = List.range
          (frameTotal (run_turn llm tts stubAvatarFun session text control turn_id).events) from
    ⟨h, by rw [h, List.length_range]⟩
  rw [List.range_eq_range']
  simp only [run_turn]
  set resolved := resolve control session.persona_defaults with hresolved
  set s0 := ((session.append_history "user" text).setState "LLM_RUN").setState "TTS_RUN"
    with hs0
  have hr := runTokens_stub tts resolved llm.tokens [] s0 0
  set R := runTokens tts stubAvatarFun resolved llm.tokens [] s0 0 with hR
  rcases hre : R.err with _ | e
  swap
  · simp only [hre]
    exact hr.1
  rcases hlf : llm.fail with _ | e
  swap
  · simp only [hre, hlf]
    exact hr.1
  by_cases hb : pyStrip R.buf = []
  · simp only [hre, hlf, if_neg (not_not_intro hb)]
    simp only [videoIndices_append, frameTotal_append]
    have htc1 : videoIndices [OutEvent.turn_complete turn_id] = [] := rfl
    have htc2 : frameTotal [OutEvent.turn_complete turn_id] = 0 := rfl
    have he1 : videoIndices ([] : List OutEvent) = [] := rfl
    have he2 : frameTotal ([] : List OutEvent) = 0 := rfl
    rw [htc1, htc2, he1, he2]
    simpa using hr.1
  · have hseg := consumeSegment_stub tts resolved R.session R.frame_counter (pyStrip R.buf)
    set T := consumeSegment tts stubAvatarFun resolved R.session R.frame_counter
      (pyStrip R.buf) with hT
    rw [hr.2] at hseg
    rcases hte : T.err with _ | e
    · simp only [hre, hlf, if_pos hb, hte]
      simp only [videoIndices_append, frameTotal_append]
      have htc1 : videoIndices [OutEvent.turn_complete turn_id] = [] := rfl
      have htc2 : frameTotal [OutEvent.turn_complete turn_id] = 0 := rfl
      rw [htc1, htc2, List.append_nil, Nat.add_zero, hr.1, hseg.1, range'_glue]
    · simp only [hre, hlf, if_pos hb, hte]
      rw [videoIndices_append, frameTotal_append, hr.1, hseg.1, range'_glue]

/-- C8, counterexample: from IDLE the spec's state machine does not allow
TURN_COMPLETE, yet the source's transition succeeds (its assert checks only
VALID_STATES membership) and sets the state. -/
theorem C8_counterexample :
    specLegalTransition "IDLE" "TURN_COMPLETE" = false ∧
    (SessionManager.create "sid" "default" none none).transition "TURN_COMPLETE"
      = Except.ok { SessionManager.create "sid" "default" none none with
                    state := "TURN_COMPLETE", stateWrites := ["TURN_COMPLETE"] } := by
  constructor
  · rfl
  · rfl

/-- C8 (amended): transition asserts only membership of the target in
VALID_STATES, independently of the current state: it succeeds exactly when
the target is a valid state name, in which case the state is set to the
target, and fails the assertion otherwise. -/
theorem C8_transition_amended (s : Session) (t : String) :
    ((∃ s2, s.transition t = Except.ok s2) ↔ t ∈ VALID_STATES) ∧
    (∀ s2, s.transition t = Except.ok s2 → s2.state = t) ∧
    (t ∉ VALID_STATES → s.transition t = Except.error ("Unknown state: " ++ t)) := by
  unfold Session.transition
  by_cases h : t ∈ VALID_STATES <;> simp [h]

/-- C8 witness: the amended theorem evaluated at a concrete session, with the
membership and non-membership hypotheses discharged at concrete targets. -/
theorem C8_transition_amended_witness :
    ((SessionManager.create "sid" "default" none none).transition "LLM_RUN"
        = Except.ok { SessionManager.create "sid" "default" none none with
                      state := "LLM_RUN", stateWrites := ["LLM_RUN"] } →
      ({ SessionManager.create "sid" "default" none none with
         state := "LLM_RUN", stateWrites := ["LLM_RUN"] } : Session).state = "LLM_RUN") ∧
    (SessionManager.create "sid" "default" none none).transition "NOT_A_STATE"
      = Except.error ("Unknown state: " ++ "NOT_A_STATE") :=
  ⟨(C8_transition_amended (SessionManager.create "sid" "default" none none) "LLM_RUN").2.1 _,
   (C8_transition_amended (SessionManager.create "sid" "default" none none)
      "NOT_A_STATE").2.2 (by decide)⟩

/-- C9: update appends video_ts - audio_ts to the window bounded at the last
10 samples and returns that drift; the mean over the current window is the
sample sum divided by the sample count, 0 when the window is empty; and
immediately after reset the mean is 0. -/
theorem C9_drift_tracker (d : DriftController) (a v : ℚ) :
    (d.window = 10 →
      (d.update a v).1 = v - a ∧
      (d.update a v).2.history =
        (d.history ++ [v - a]).drop ((d.history ++ [v - a]).length - 10)) ∧
    (d.history ≠ [] → d.mean_drift_ms = d.history.sum / d.history.length) ∧
    (d.history = [] → d.mean_drift_ms = 0) ∧
    d.reset.mean_drift_ms = 0 := by
  refine ⟨fun hw => ⟨rfl, ?_⟩, fun h => ?_, fun h => ?_, ?_⟩
  · dsimp only [DriftController.update]
    rw [hw]
    split
    · rfl
    · next h =>
        rw [Nat.sub_eq_zero_of_le (Nat.le_of_not_lt h), List.drop_zero]
  · simp [DriftController.mean_drift_ms, h]
  · simp [DriftController.mean_drift_ms, h]
  · simp [DriftController.reset, DriftController.mean_drift_ms]

/-- C9 witness: the theorem evaluated at a concrete tracker holding one
sample. -/
theorem C9_drift_tracker_witness :
    (({ window := 10, history := [3] } : DriftController).update 100 140).1 = 140 - 100 ∧
    ({ window := 10, history := [3] } : DriftController).mean_drift_ms
      = ([3] : List ℚ).sum / (([3] : List ℚ).length : ℚ) :=
  ⟨((C9_drift_tracker { window := 10, history := [3] } 100 140).1 rfl).1,
   (C9_drift_tracker { window := 10, history := [3] } 100 140).2.1 (by decide)⟩

/-- C10: SessionManager.create resolves the created session's persona
defaults and persona name from the persona_id alone; the emotion and
character arguments are accepted and ignored — sessions created with any two
choices of them are identical. -/
theorem C10_create_ignores_emotion_character (session_id persona_id : String)
    (e e2 : Option EmotionControl) (c c2 : Option CharacterControl) :
    SessionManager.create session_id persona_id e c
      = SessionManager.create session_id persona_id e2 c2 ∧
    (SessionManager.create session_id persona_id e c).persona_defaults
      = get_persona_defaults persona_id ∧
    (SessionManager.create session_id persona_id e c).persona_name
      = get_persona_name persona_id :=
  ⟨rfl, rfl, rfl⟩

end Tth

